import Mathlib

/-!
Verification of the Verba streamlit front-end's core layer
(`streamlit_rag/verba_utils`): the typed request/response contract
(`payloads.py`), the transport client (`api_client.py`) and the
session derived-state helpers (`utils.py`), shallowly embedded in Lean.

Modelling conventions:
* Python `float` relevance scores are modelled as `ℚ`; the code never does
  float arithmetic on them, it only compares them, and `ℚ` is faithful for
  ordering.
* Python `int` is modelled as `Int` (`//` becomes `Int.fdiv`, floor division).
* A Python `dict` used as a duck-typed value (the result of
  `test_api_connection`) is modelled as an association list
  `List (String × PyVal)`; Python truthiness of a dict is "the dict is
  non-empty".
* Fallible Python code returns `Except PyError α`; `PyError` names the
  exception class the interpreter would raise.
* A missing dictionary key (`"typewriter" not in message`) is modelled with
  `Option`.
-/

/-- Primitive Python values stored in the duck-typed dicts the code builds. -/
inductive PyVal : Type where
  | bool (b : Bool)
  | str (s : String)
deriving DecidableEq

/-- Exception classes the embedded code can raise. -/
inductive PyError : Type where
  | attributeError
  | unicodeDecodeError
  | typeError
  | nameError
deriving DecidableEq

/-! ## Schema layer: `verba_utils/payloads.py` -/

/-- Embeds `payloads.DocumentChunk`. `score` is a `float` in the source,
modelled as `ℚ` (only ever compared, never computed with). -/
structure DocumentChunk where
  text : String := ""
  doc_name : String := ""
  chunk_id : Int
  doc_uuid : String
  doc_type : String
  score : ℚ
deriving DecidableEq

/-- Embeds `payloads.QueryResponsePayload`. -/
structure QueryResponsePayload where
  documents : List DocumentChunk := []
  context : String := ""
  system : Option String := none
deriving DecidableEq

/-- Embeds `payloads.DocumentSearchQueryResponsePayload.AdditionalItem`. -/
structure AdditionalItem where
  id : String := ""
deriving DecidableEq

/-- Embeds `payloads.DocumentSearchQueryResponsePayload`. -/
structure DocumentSearchQueryResponsePayload where
  additional : AdditionalItem := {}
  doc_link : String := ""
  doc_name : String := ""
  doc_type : String := ""
deriving DecidableEq

/-- Embeds `payloads.SearchQueryResponsePayload`. `current_embedder` has no
default in the source. -/
structure SearchQueryResponsePayload where
  documents : List DocumentSearchQueryResponsePayload := []
  doc_types : List String := []
  current_embedder : String
deriving DecidableEq

/-- Embeds `payloads.GetDocumentResponsePayload.DocumentResponsePayload.DocumentPropertiesResponsePayload`. -/
structure DocumentPropertiesResponsePayload where
  chunk_count : Int
  doc_link : String
  doc_name : String
  doc_type : String
  text : String
  timestamp : String
deriving DecidableEq

/-- Embeds `payloads.GetDocumentResponsePayload.DocumentResponsePayload`.
`vectorWeights : Optional[Any]` is modelled with an opaque optional string. -/
structure DocumentResponsePayload where
  document_class : String
  creationTimeUnix : Int
  id : String
  lastUpdateTimeUnix : Int
  properties : DocumentPropertiesResponsePayload
  tenant : String
  vectorWeights : Option String
deriving DecidableEq

/-- Embeds `payloads.GetDocumentResponsePayload`. -/
structure GetDocumentResponsePayload where
  document : DocumentResponsePayload
deriving DecidableEq

/-- Embeds `payloads.ConversationItem` (all three fields are required in the
pydantic model). -/
structure ConversationItem where
  type : String
  content : String
  typewriter : Bool
deriving DecidableEq

/-- Embeds `payloads.GeneratePayload`. -/
structure GeneratePayload where
  query : String
  context : String
  conversation : List ConversationItem := []
deriving DecidableEq

/-- Embeds `payloads.CachedResponse`. `distance` is a `float`, modelled as `ℚ`. -/
structure CachedResponse where
  message : String
  finish_reason : String
  cached : Bool
  distance : ℚ
deriving DecidableEq

/-- Value of `GenerateResponsePayload.system`, whose pydantic type is
`str | CachedResponse = None`: either absent (`None`), a plain string, or the
cached-response variant. -/
inductive GenSystem : Type where
  | none
  | str (s : String)
  | cached (c : CachedResponse)
deriving DecidableEq

/-- Embeds `payloads.GenerateResponsePayload`. -/
structure GenerateResponsePayload where
  system : GenSystem := .none
deriving DecidableEq

/-! ## Session derived-state helpers: `verba_utils/utils.py` -/

/-- One message dict of `st.session_state["messages"]` as built by
`app_pages/chatbot.py`: always a `"type"` and a `"content"` key, and an
optional `"typewriter"` key (`none` models the key being absent, as in the
default welcome message). -/
structure Message where
  type : String
  content : String
  typewriter : Option Bool := none
deriving DecidableEq

/-- Embeds `ConversationItem(**message)` guarded by `"typewriter" in message`
in `utils.create_conversation_items`: a message whose `"typewriter"` key is
absent yields nothing, otherwise pydantic validation succeeds (the `"type"`
and `"content"` keys are always present and well-typed in this repository's
messages) and produces the corresponding `ConversationItem`. -/
def to_conversation_item (m : Message) : Option ConversationItem :=
  match m.typewriter with
  | some b => some { type := m.type, content := m.content, typewriter := b }
  | none => none

/-- Embeds the `for message in messages_to_process` loop of
`utils.create_conversation_items`: keep the messages carrying the
`"typewriter"` key, converted to `ConversationItem`s. -/
def conversation_items_loop (msgs : List Message) : List ConversationItem :=
  msgs.filterMap to_conversation_item

/-- Embeds `utils.create_conversation_items`: if the list is non-empty and the
last message has `"typewriter"` set to `True` (the in-flight user prompt),
that last message is dropped, then the loop converts the rest. -/
def create_conversation_items (msgs : List Message) : List ConversationItem :=
  let messages_to_process :=
    match msgs.getLast? with
    | some m => if m.typewriter = some true then msgs.dropLast else msgs
    | none => msgs
  conversation_items_loop messages_to_process

/-- One element of `st.session_state["retrieved_documents"]` as appended by
`utils.append_documents_in_session_manager`: a dict with a `"prompt"` and a
`"documents"` key. -/
structure RetrievedEntry where
  prompt : String
  documents : List DocumentChunk
deriving DecidableEq

/-- Embeds `utils.get_prompt_history`; the argument is
`st.session_state["retrieved_documents"]`, `none` modelling the key being
absent from the session state. -/
def get_prompt_history : Option (List RetrievedEntry) → List String
  | Option.none => []
  | Option.some hist => hist.reverse.map (fun e => e.prompt)

/-- Embeds `sorted(documents, key=lambda chunk: chunk.score, reverse=True)`:
Python's stable sort in descending score order (`mergeSort` with this
comparison is stable exactly like CPython's sort with `reverse=True`). -/
def sort_by_descending_score (docs : List DocumentChunk) : List DocumentChunk :=
  docs.mergeSort (fun a b => decide (b.score ≤ a.score))

/-- Embeds `utils.get_retrieved_chunks_from_prompt`: scan
`st.session_state.get("retrieved_documents", [])` in reverse, return the
first entry whose prompt matches, its documents sorted by decreasing score;
`[]` when nothing matches. -/
def get_retrieved_chunks_from_prompt (p : String)
    (sess : Option (List RetrievedEntry)) : List DocumentChunk :=
  match (sess.getD []).reverse.find? (fun e => e.prompt == p) with
  | Option.some e => sort_by_descending_score e.documents
  | Option.none => []

/-! ## Helper lemmas -/

/-- The list actually converted by `create_conversation_items` is a sublist of
the input messages. -/
theorem create_conversation_items_exists_sublist (msgs : List Message) :
    ∃ pre : List Message, pre.Sublist msgs ∧
      create_conversation_items msgs = conversation_items_loop pre := by
  unfold create_conversation_items
  cases h : msgs.getLast? with
  | none => exact ⟨msgs, List.Sublist.refl msgs, rfl⟩
  | some m =>
    by_cases htw : m.typewriter = some true
    · exact ⟨msgs.dropLast, List.dropLast_sublist msgs, by simp [htw]⟩
    · exact ⟨msgs, List.Sublist.refl msgs, by simp [htw]⟩

/-- A successful conversion means the `"typewriter"` key was present. -/
theorem to_conversation_item_some {m : Message} {it : ConversationItem}
    (h : to_conversation_item m = some it) : m.typewriter ≠ Option.none := by
  intro habs
  simp [to_conversation_item, habs] at h

/-! ## Claim theorems for the session derived-state helpers -/

/-- Claim C4: `create_conversation_items` never includes the last message when
it is a pending user prompt (its `"typewriter"` flag is set to `True`): in
that case the result is the conversion of the list without its last element.
And every item of the result originates from a message of the input that
carries the `"typewriter"` key; messages lacking it (such as the default
welcome message) are always excluded. -/
theorem create_conversation_items_spec (msgs : List Message) :
    (∀ m, msgs.getLast? = some m → m.typewriter = some true →
      create_conversation_items msgs = conversation_items_loop msgs.dropLast)
    ∧ (∀ it ∈ create_conversation_items msgs,
        ∃ m ∈ msgs, m.typewriter ≠ Option.none ∧ to_conversation_item m = some it) := by
  constructor
  · intro m hm htw
    simp [create_conversation_items, hm, htw]
  · intro it hit
    obtain ⟨pre, hsub, heq⟩ := create_conversation_items_exists_sublist msgs
    rw [heq] at hit
    obtain ⟨m, hmem, hconv⟩ := List.mem_filterMap.mp hit
    exact ⟨m, hsub.subset hmem, to_conversation_item_some hconv, hconv⟩

/-- Claim C4 witness: on a concrete session (welcome message without the
`"typewriter"` key followed by a pending user prompt), the conversion is
empty. -/
theorem create_conversation_items_spec_witness :
    create_conversation_items
      [{ type := "system", content := "welcome", typewriter := Option.none },
       { type := "user", content := "question", typewriter := some true }] = []
    ∧ ({ type := "user", content := "question", typewriter := some true } : Message).typewriter
        = some true := by
  refine ⟨?_, rfl⟩
  have h := (create_conversation_items_spec
      [{ type := "system", content := "welcome", typewriter := Option.none },
       { type := "user", content := "question", typewriter := some true }]).1
      { type := "user", content := "question", typewriter := some true } rfl rfl
  simpa [conversation_items_loop, to_conversation_item] using h

/-- Claim C3 counterexample: recording the same prompt twice makes
`get_prompt_history` return it twice, so the result is not a list of
distinct prompts as the claim states. -/
theorem get_prompt_history_not_distinct :
    get_prompt_history
        (some [{ prompt := "a", documents := [] }, { prompt := "a", documents := [] }])
      = ["a", "a"]
    ∧ ¬ List.Nodup (get_prompt_history
        (some [{ prompt := "a", documents := [] }, { prompt := "a", documents := [] }])) := by
  constructor
  · rfl
  · decide

/-- Claim C3 (amended): `get_prompt_history` returns the prompts of all
recorded entries, most recently recorded first, duplicates included; and the
empty list when the session has no retrieval history. -/
theorem get_prompt_history_spec (hist : List RetrievedEntry) :
    get_prompt_history (some hist) = (hist.map (fun e => e.prompt)).reverse
    ∧ get_prompt_history Option.none = [] := by
  constructor
  · simp [get_prompt_history]
  · rfl

/-- Claim C5: `get_retrieved_chunks_from_prompt p` returns the chunks of the
most recently recorded entry whose prompt equals `p` (a permutation of that
entry's documents) sorted by non-increasing score, and the empty list when no
entry matches. -/
theorem get_retrieved_chunks_from_prompt_spec (p : String)
    (sess : Option (List RetrievedEntry)) :
    (∀ e, (sess.getD []).reverse.find? (fun e => e.prompt == p) = some e →
      (get_retrieved_chunks_from_prompt p sess).Perm e.documents
      ∧ (get_retrieved_chunks_from_prompt p sess).Pairwise
          (fun a b => b.score ≤ a.score))
    ∧ ((sess.getD []).reverse.find? (fun e => e.prompt == p) = Option.none →
      get_retrieved_chunks_from_prompt p sess = []) := by
  constructor
  · intro e he
    have hval : get_retrieved_chunks_from_prompt p sess
        = sort_by_descending_score e.documents := by
      simp [get_retrieved_chunks_from_prompt, he]
    rw [hval]
    refine ⟨List.mergeSort_perm _ _, ?_⟩
    have hs := @List.sorted_mergeSort DocumentChunk
        (fun a b => decide (b.score ≤ a.score))
        (fun a b c hab hbc => by
          simp only [decide_eq_true_eq] at *
          exact le_trans hbc hab)
        (fun a b => by
          simp only [Bool.or_eq_true, decide_eq_true_eq]
          exact le_total b.score a.score)
        e.documents
    exact hs.imp (fun h => of_decide_eq_true h)
  · intro he
    simp [get_retrieved_chunks_from_prompt, he]

/-- Claim C5 witness: a concrete two-chunk retrieval entry is returned sorted
by decreasing score. -/
theorem get_retrieved_chunks_from_prompt_spec_witness :
    (get_retrieved_chunks_from_prompt "q"
        (some [{ prompt := "q",
                 documents :=
                  [{ chunk_id := 0, doc_uuid := "u0", doc_type := "t", score := 1 },
                   { chunk_id := 1, doc_uuid := "u1", doc_type := "t", score := 2 }] }])).Perm
      [{ chunk_id := 0, doc_uuid := "u0", doc_type := "t", score := 1 },
       { chunk_id := 1, doc_uuid := "u1", doc_type := "t", score := 2 }]
    ∧ (get_retrieved_chunks_from_prompt "q"
        (some [{ prompt := "q",
                 documents :=
                  [{ chunk_id := 0, doc_uuid := "u0", doc_type := "t", score := 1 },
                   { chunk_id := 1, doc_uuid := "u1", doc_type := "t", score := 2 }] }])).Pairwise
        (fun a b => b.score ≤ a.score) :=
  (get_retrieved_chunks_from_prompt_spec "q"
      (some [{ prompt := "q",
               documents :=
                [{ chunk_id := 0, doc_uuid := "u0", doc_type := "t", score := 1 },
                 { chunk_id := 1, doc_uuid := "u1", doc_type := "t", score := 2 }] }])).1
    { prompt := "q",
      documents :=
        [{ chunk_id := 0, doc_uuid := "u0", doc_type := "t", score := 1 },
         { chunk_id := 1, doc_uuid := "u1", doc_type := "t", score := 2 }] }
    (by decide)

/-! ## Transport client: `verba_utils/api_client.py`

The HTTP exchange is abstracted by `WireResponse α`: the `status_code` of the
`requests.Response` and the outcome of validating its JSON body against the
pydantic schema `α` (`α.model_validate(response.json())`). The client methods
are embedded as functions of the wire response they observe. -/

/-- Outcome of pydantic schema validation of a response body. -/
inductive SchemaValidation (α : Type) : Type where
  | valid (a : α)
  | invalid
deriving DecidableEq

/-- Models the `requests.Response` an endpoint call observes, paired with the
result of validating its body against the endpoint's response schema. -/
structure WireResponse (α : Type) : Type where
  status_code : Nat
  parsed : SchemaValidation α
deriving DecidableEq

/-- Argument passed to `APIClient.query`: a Python `str` or a `bytes` value
(a byte is a `Nat` below 256). -/
inductive PyStrOrBytes : Type where
  | pystr (s : String)
  | pybytes (b : List Nat)
deriving DecidableEq

/-- Is `b` a UTF-8 continuation byte (`0x80..0xBF`)? -/
def is_utf8_cont (b : Nat) : Bool :=
  0x80 ≤ b && b ≤ 0xBF

/-- Allowed range of the byte following a 3- or 4-byte UTF-8 lead byte `b`
(strict decoding: overlong encodings, surrogates and code points above
`U+10FFFF` are rejected, as Python's `bytes.decode("utf-8")` does). -/
def utf8_cont1_ok (b b1 : Nat) : Bool :=
  if b = 0xE0 then 0xA0 ≤ b1 && b1 ≤ 0xBF
  else if b = 0xED then 0x80 ≤ b1 && b1 ≤ 0x9F
  else if b = 0xF0 then 0x90 ≤ b1 && b1 ≤ 0xBF
  else if b = 0xF4 then 0x80 ≤ b1 && b1 ≤ 0x8F
  else is_utf8_cont b1

/-- Strict UTF-8 decoder on byte lists, models Python's
`bytes.decode("utf-8")`: `none` is a `UnicodeDecodeError`. -/
def utf8_decode_list : List Nat → Option (List Char)
  | [] => some []
  | b :: rest =>
    if b ≤ 0x7F then
      match utf8_decode_list rest with
      | some cs => some (Char.ofNat b :: cs)
      | Option.none => Option.none
    else if 0xC2 ≤ b ∧ b ≤ 0xDF then
      match rest with
      | b1 :: rest2 =>
        if is_utf8_cont b1 then
          match utf8_decode_list rest2 with
          | some cs => some (Char.ofNat ((b - 0xC0) * 0x40 + (b1 - 0x80)) :: cs)
          | Option.none => Option.none
        else Option.none
      | [] => Option.none
    else if 0xE0 ≤ b ∧ b ≤ 0xEF then
      match rest with
      | b1 :: b2 :: rest3 =>
        if utf8_cont1_ok b b1 && is_utf8_cont b2 then
          match utf8_decode_list rest3 with
          | some cs =>
            some (Char.ofNat ((b - 0xE0) * 0x1000 + (b1 - 0x80) * 0x40 + (b2 - 0x80)) :: cs)
          | Option.none => Option.none
        else Option.none
      | _ => Option.none
    else if 0xF0 ≤ b ∧ b ≤ 0xF4 then
      match rest with
      | b1 :: b2 :: b3 :: rest4 =>
        if utf8_cont1_ok b b1 && is_utf8_cont b2 && is_utf8_cont b3 then
          match utf8_decode_list rest4 with
          | some cs =>
            some (Char.ofNat
              ((b - 0xF0) * 0x40000 + (b1 - 0x80) * 0x1000
                + (b2 - 0x80) * 0x40 + (b3 - 0x80)) :: cs)
          | Option.none => Option.none
        else Option.none
      | _ => Option.none
    else Option.none

/-- Models `bytes.decode("utf-8")` returning a `str`. -/
def utf8_decode (b : List Nat) : Option String :=
  (utf8_decode_list b).map (fun cs => String.mk cs)

/-- Standard UTF-8 encoding of one code point. -/
def utf8_encode_char (c : Char) : List Nat :=
  let n := c.toNat
  if n ≤ 0x7F then [n]
  else if n ≤ 0x7FF then [0xC0 + n / 0x40, 0x80 + n % 0x40]
  else if n ≤ 0xFFFF then
    [0xE0 + n / 0x1000, 0x80 + (n / 0x40) % 0x40, 0x80 + n % 0x40]
  else
    [0xF0 + n / 0x40000, 0x80 + (n / 0x1000) % 0x40,
     0x80 + (n / 0x40) % 0x40, 0x80 + n % 0x40]

/-- Models Python's `str.encode("utf-8")`. -/
def utf8_encode (s : String) : List Nat :=
  s.data.flatMap utf8_encode_char

namespace APIClient

/-- Message of the fallback `QueryResponsePayload(system=...)` built by
`APIClient.query` on a failed exchange; the embedded f-string interpolates
`repr(response)`, which is `<Response [status]>`. -/
def query_fallback_message (status : Nat) : String :=
  "Sorry, something went wrong when proceeding your request. Details -> `<Response ["
    ++ toString status ++ "]>`"

/-- Embeds `APIClient.query`. The source annotates `data: str` but immediately
evaluates `data.decode("utf-8")`: on a Python 3 `str` this raises
`AttributeError` (no `decode` method); on `bytes` it decodes (raising
`UnicodeDecodeError` on invalid UTF-8). Then it POSTs and, on a 200 response
that validates, returns the validated payload; every other outcome falls
through to `QueryResponsePayload(system=...)`, a keyword call carrying the
apology message. -/
def query (resp : WireResponse QueryResponsePayload) (data : PyStrOrBytes) :
    Except PyError QueryResponsePayload :=
  match data with
  | .pystr _ => .error .attributeError
  | .pybytes b =>
    match utf8_decode b with
    | Option.none => .error .unicodeDecodeError
    | Option.some _ =>
      if resp.status_code = 200 then
        match resp.parsed with
        | .valid p => .ok p
        | .invalid => .ok { system := some (query_fallback_message resp.status_code) }
      else .ok { system := some (query_fallback_message resp.status_code) }

/-- Embeds `APIClient.get_all_documents`. On a 200 response that validates it
returns the validated payload. On every other path (non-200 status, or
schema-validation failure) the source executes
`return SearchQueryResponsePayload([], [], "")`, which passes positional
arguments to a pydantic v2 `BaseModel` whose `__init__` accepts keyword
arguments only, so it raises `TypeError` instead of returning. -/
def get_all_documents (resp : WireResponse SearchQueryResponsePayload) :
    Except PyError SearchQueryResponsePayload :=
  if resp.status_code = 200 then
    match resp.parsed with
    | .valid p => .ok p
    | .invalid => .error .typeError
  else .error .typeError

/-- Embeds `APIClient.get_document`. On a 200 response that validates it
returns the validated payload. On every other path the source executes
`return GetDocumentResponsePayload({})`, again a positional call to a
pydantic v2 `BaseModel` (keyword-only `__init__`), which raises `TypeError`. -/
def get_document (resp : WireResponse GetDocumentResponsePayload) :
    Except PyError GetDocumentResponsePayload :=
  if resp.status_code = 200 then
    match resp.parsed with
    | .valid p => .ok p
    | .invalid => .error .typeError
  else .error .typeError

end APIClient

/-! ## Retry policy of `APIClient.health_check`

`health_check` is decorated with
`@retry(stop=stop_after_attempt(4), wait=wait_exponential(multiplier=1, min=2, max=10))`.
The next three definitions model the tenacity library's semantics: after a
failed attempt numbered `n` (numbering starts at 1), the loop stops if the
stop condition holds, otherwise sleeps the computed wait and retries. -/

/-- Models `tenacity.wait_exponential(multiplier, min, max)` applied to the
just-failed attempt number: `max(max(0, min), min(multiplier * 2**n, max))`. -/
def wait_exponential (multiplier mn mx n : ℕ) : ℕ :=
  max (max 0 mn) (min (multiplier * 2 ^ n) mx)

/-- Models `tenacity.stop_after_attempt(n)`. -/
def stop_after_attempt (n attempt_number : ℕ) : Bool :=
  n ≤ attempt_number

/-- The tenacity retry loop around `health_check`, for an abstract action
telling whether attempt number `n` succeeds. Returns the number of the
attempt on which the loop exits and the list of waits slept between
consecutive attempts. The `fuel` argument only bounds the recursion; it is
never exhausted because `stop_after_attempt 4` fires at attempt 4, so with
`fuel = 4` the model is exactly the unbounded tenacity loop. -/
def health_check_retry_go (action : ℕ → Bool) : ℕ → ℕ → ℕ × List ℕ
  | 0, attempt => (attempt, [])
  | fuel + 1, attempt =>
    if action attempt then (attempt, [])
    else if stop_after_attempt 4 attempt then (attempt, [])
    else
      let w := wait_exponential 1 2 10 attempt
      let r := health_check_retry_go action fuel (attempt + 1)
      (r.1, w :: r.2)

/-- Embeds the retried `APIClient.health_check`: attempts start at number 1. -/
def health_check_retry (action : ℕ → Bool) : ℕ × List ℕ :=
  health_check_retry_go action 4 1

/-- Outcome of the (retried) health probe as observed by
`test_api_connection`: a 200 response, a non-200 response (with the JSON
body of the last attempt), or a raised
`requests.exceptions.RequestException` / `tenacity.RetryError`. -/
inductive HealthOutcome : Type where
  | ok
  | badStatus (code : Nat) (content : String)
  | connError (msg : String)
deriving DecidableEq

/-- Embeds `api_client.test_api_connection`: returns a Python dict — modelled
as an association list — with an `"is_ok"` key, plus an `"error_details"` key
on failure. -/
def test_api_connection : HealthOutcome → List (String × PyVal)
  | .ok => [("is_ok", PyVal.bool true)]
  | .badStatus code content =>
    [("is_ok", PyVal.bool false),
     ("error_details",
       PyVal.str ("API health status code : " ++ toString code
         ++ " - API health content : " ++ content))]
  | .connError msg =>
    [("is_ok", PyVal.bool false),
     ("error_details",
       PyVal.str ("Connection error : " ++ msg
         ++ " Make sure Verba is running or accessible"))]

/-! ## Answer generation orchestration: `utils.generate_answer` -/

/-- Embeds the word-count resolution at the top of `utils.generate_answer`:
`if max_nb_words is None and min_nb_words is not None: max_nb_words = min_nb_words * 2`,
`elif min_nb_words is None and max_nb_words is not None: min_nb_words = max_nb_words // 2`
(Python `//` is floor division, `Int.fdiv`). -/
def resolve_bounds : Option Int → Option Int → Option Int × Option Int
  | Option.some mn, Option.none => (some mn, some (mn * 2))
  | Option.none, Option.some mx => (some (Int.fdiv mx 2), some mx)
  | mn, mx => (mn, mx)

/-- Embeds the `question_appendix` computation of `utils.generate_answer`:
the instruction phrase when both bounds have values, the empty string
otherwise. -/
def question_appendix : Option Int → Option Int → String
  | Option.some mn, Option.some mx =>
    " Please provide an elaborated answer in " ++ toString mn
      ++ " to " ++ toString mx ++ " words."
  | _, _ => ""

/-- Observable outcome of one `utils.generate_answer` call. `question_text`
is `str(prompt) + str(question_appendix)` before encoding; `query_arg` is the
value passed to `api_client.query` when it is called; the two flags record
which client methods were invoked; `result` is the returned value — the final
`response.system`, paired with `query_response.documents` when
`return_documents` is set. -/
structure GenerateAnswerResult where
  question_text : String
  query_arg : Option PyStrOrBytes
  query_called : Bool
  generate_called : Bool
  result : Except PyError (GenSystem × Option (List DocumentChunk))

/-- Embeds `utils.generate_answer`. The values returned by the two client
calls are supplied as oracles: `qres` is what `api_client.query` returns for
this exchange and `gres` what `api_client.generate` returns (their own wire
behaviour is embedded separately as `APIClient.query` etc.).

Control flow, following the source: resolve the word bounds, build the
elaborated question and encode it to UTF-8 bytes; evaluate
`if test_api_connection(api_client):` — this is the truthiness of the
returned *dict*, i.e. its non-emptiness, not the `"is_ok"` entry; inside,
call `query`; a non-`None` `query_response.system` becomes the response
without calling `generate`, otherwise `generate` is called and a
`CachedResponse` in its `system` field is unwrapped to its message. In the
`else` branch the response is the `"Verba API not available"` payload, and
`return response.system, query_response.documents` would raise `NameError`
there because `query_response` was never bound. -/
def generate_answer (prompt : String) (conversation : List ConversationItem)
    (min_nb_words max_nb_words : Option Int) (return_documents : Bool)
    (health : HealthOutcome) (qres : QueryResponsePayload)
    (gres : GenerateResponsePayload) : GenerateAnswerResult :=
  let bounds := resolve_bounds min_nb_words max_nb_words
  let appendix := question_appendix bounds.1 bounds.2
  let elaborated_text := prompt ++ appendix
  let encoded := utf8_encode elaborated_text
  if (test_api_connection health).isEmpty = false then
    let query_response := qres
    match query_response.system with
    | Option.some s =>
      let response : GenerateResponsePayload := { system := GenSystem.str s }
      { question_text := elaborated_text
        query_arg := some (PyStrOrBytes.pybytes encoded)
        query_called := true
        generate_called := false
        result := .ok (response.system,
          if return_documents then some query_response.documents else Option.none) }
    | Option.none =>
      let generated := gres
      let response : GenerateResponsePayload :=
        match generated.system with
        | GenSystem.cached c => { system := GenSystem.str c.message }
        | other => { system := other }
      { question_text := elaborated_text
        query_arg := some (PyStrOrBytes.pybytes encoded)
        query_called := true
        generate_called := true
        result := .ok (response.system,
          if return_documents then some query_response.documents else Option.none) }
  else
    let response : GenerateResponsePayload :=
      { system := GenSystem.str "Verba API not available" }
    { question_text := elaborated_text
      query_arg := Option.none
      query_called := false
      generate_called := false
      result :=
        if return_documents then .error PyError.nameError
        else .ok (response.system, Option.none) }

/-! ## Claim theorems for the transport client and orchestration -/

/-- Claim C6: the health check is attempted at most 4 times; the waits slept
between consecutive attempts are non-decreasing and each lies in `[2, 10]`
seconds; when every attempt fails the loop performs exactly 4 attempts,
sleeping `[2, 4, 8]` for a total wait of 14 seconds. -/
theorem health_check_retry_spec (action : ℕ → Bool) :
    (health_check_retry action).1 ≤ 4
    ∧ List.Chain' (fun a b => a ≤ b) (health_check_retry action).2
    ∧ (∀ w ∈ (health_check_retry action).2, 2 ≤ w ∧ w ≤ 10)
    ∧ ((∀ k, action k = false) →
        health_check_retry action = (4, [2, 4, 8])
        ∧ ((health_check_retry action).2).sum = 14) := by
  have hex : (∀ k, action k = false) →
      health_check_retry action = (4, [2, 4, 8])
      ∧ ((health_check_retry action).2).sum = 14 := by
    intro hall
    have h : health_check_retry action = (4, [2, 4, 8]) := by
      simp [health_check_retry, health_check_retry_go, hall 1, hall 2, hall 3, hall 4,
        stop_after_attempt, wait_exponential]
    exact ⟨h, by rw [h]; rfl⟩
  have hcases : health_check_retry action = (1, [])
      ∨ health_check_retry action = (2, [2])
      ∨ health_check_retry action = (3, [2, 4])
      ∨ health_check_retry action = (4, [2, 4, 8]) := by
    by_cases h1 : action 1
    · exact Or.inl (by simp [health_check_retry, health_check_retry_go, h1])
    · by_cases h2 : action 2
      · exact Or.inr (Or.inl (by
          simp [health_check_retry, health_check_retry_go, h1, h2,
            stop_after_attempt, wait_exponential]))
      · by_cases h3 : action 3
        · exact Or.inr (Or.inr (Or.inl (by
            simp [health_check_retry, health_check_retry_go, h1, h2, h3,
              stop_after_attempt, wait_exponential])))
        · exact Or.inr (Or.inr (Or.inr (by
            simp [health_check_retry, health_check_retry_go, h1, h2, h3,
              stop_after_attempt, wait_exponential])))
  rcases hcases with h | h | h | h <;>
    exact ⟨by simp [h], by simp [h, List.chain'_cons], by simp [h], hex⟩

/-- Claim C6 witness: with an action that never succeeds, the loop stops after
attempt 4 having slept 2, 4 and 8 seconds, 14 seconds in total. -/
theorem health_check_retry_spec_witness :
    health_check_retry (fun _ => false) = (4, [2, 4, 8])
    ∧ ((health_check_retry (fun _ => false)).2).sum = 14 :=
  (health_check_retry_spec (fun _ => false)).2.2.2 (fun _ => rfl)

/-- Claim C1 (refuted as stated, supporting the code-bug verdict): on a
failing health probe — the returned dict says `is_ok: False` — the
`if test_api_connection(api_client):` guard of `generate_answer` still takes
the query branch, because a non-empty Python dict is truthy. `query` (and
here `generate`) are called and the answer is the generated one, not the
`"Verba API not available"` message of the dead `else` branch. -/
theorem generate_answer_unavailable_branch_dead :
    (test_api_connection (HealthOutcome.connError "conn refused")).lookup "is_ok"
      = some (PyVal.bool false)
    ∧ (generate_answer "hello" [] Option.none Option.none false
        (HealthOutcome.connError "conn refused")
        { context := "ctx" } { system := GenSystem.str "llm answer" }).query_called = true
    ∧ (generate_answer "hello" [] Option.none Option.none false
        (HealthOutcome.connError "conn refused")
        { context := "ctx" } { system := GenSystem.str "llm answer" }).generate_called = true
    ∧ (generate_answer "hello" [] Option.none Option.none false
        (HealthOutcome.connError "conn refused")
        { context := "ctx" } { system := GenSystem.str "llm answer" }).result
      = Except.ok (GenSystem.str "llm answer", Option.none) :=
  ⟨rfl, rfl, rfl, rfl⟩

/-- Claim C2 (refuted as stated, supporting the code-bug verdict): on every
backend failure — non-200 status or schema-validation failure — both
`get_all_documents` and `get_document` raise `TypeError` (their fallback
lines call a pydantic model with positional arguments) instead of returning
an empty payload. -/
theorem get_documents_failure_raises
    (respA : WireResponse SearchQueryResponsePayload)
    (respD : WireResponse GetDocumentResponsePayload) :
    (respA.status_code ≠ 200 ∨ respA.parsed = SchemaValidation.invalid →
      APIClient.get_all_documents respA = .error PyError.typeError)
    ∧ (respD.status_code ≠ 200 ∨ respD.parsed = SchemaValidation.invalid →
      APIClient.get_document respD = .error PyError.typeError) := by
  constructor
  · intro h
    unfold APIClient.get_all_documents
    by_cases hs : respA.status_code = 200
    · rcases h with h | h
      · exact absurd hs h
      · simp [hs, h]
    · simp [hs]
  · intro h
    unfold APIClient.get_document
    by_cases hs : respD.status_code = 200
    · rcases h with h | h
      · exact absurd hs h
      · simp [hs, h]
    · simp [hs]

/-- Claim C2 witness: concrete failing exchanges (a 500 status; a 200 body
that fails validation) make both methods raise `TypeError`. -/
theorem get_documents_failure_raises_witness :
    APIClient.get_all_documents { status_code := 500, parsed := SchemaValidation.invalid }
      = .error PyError.typeError
    ∧ APIClient.get_document { status_code := 200, parsed := SchemaValidation.invalid }
      = .error PyError.typeError :=
  ⟨(get_documents_failure_raises
      { status_code := 500, parsed := SchemaValidation.invalid }
      { status_code := 200, parsed := SchemaValidation.invalid }).1 (Or.inl (by decide)),
   (get_documents_failure_raises
      { status_code := 500, parsed := SchemaValidation.invalid }
      { status_code := 200, parsed := SchemaValidation.invalid }).2 (Or.inr rfl)⟩

/-- Claim C7: when exactly one of `min_nb_words` / `max_nb_words` is supplied,
the missing bound is derived (`max = min * 2`; `min = max // 2`, floor
division); the elaborated question is the prompt followed by the appendix;
and the appendix is the length instruction exactly when both bounds are
resolved, the empty string otherwise. -/
theorem generate_answer_word_bounds (mn mx : Option Int) :
    (∀ a, mn = some a → mx = Option.none →
      resolve_bounds mn mx = (some a, some (a * 2)))
    ∧ (∀ b, mn = Option.none → mx = some b →
      resolve_bounds mn mx = (some (Int.fdiv b 2), some b))
    ∧ (∀ prompt conversation rd health qres gres,
      (generate_answer prompt conversation mn mx rd health qres gres).question_text
        = prompt ++ question_appendix (resolve_bounds mn mx).1 (resolve_bounds mn mx).2)
    ∧ (∀ a b, (resolve_bounds mn mx).1 = some a → (resolve_bounds mn mx).2 = some b →
      question_appendix (resolve_bounds mn mx).1 (resolve_bounds mn mx).2
        = " Please provide an elaborated answer in " ++ toString a
            ++ " to " ++ toString b ++ " words.")
    ∧ ((resolve_bounds mn mx).1 = Option.none ∨ (resolve_bounds mn mx).2 = Option.none →
      question_appendix (resolve_bounds mn mx).1 (resolve_bounds mn mx).2 = "") := by
  refine ⟨?_, ?_, ?_, ?_, ?_⟩
  · intro a ha hb; subst ha; subst hb; rfl
  · intro b ha hb; subst ha; subst hb; rfl
  · intro prompt conversation rd health qres gres
    simp only [generate_answer]
    cases hq : qres.system <;> split <;> simp [hq]
  · intro a b h1 h2; rw [h1, h2]; rfl
  · rcases Classical.em ((resolve_bounds mn mx).1 = Option.none) with h | h
    · intro _
      rw [h]
      cases (resolve_bounds mn mx).2 <;> rfl
    · intro hor
      rcases hor with h2 | h2
      · exact absurd h2 h
      · rw [h2]
        cases (resolve_bounds mn mx).1 <;> rfl

/-- Claim C7 witness: with only a minimum of 5 words the maximum becomes 10;
with only a maximum of 7 the minimum becomes `7 // 2 = 3`; the elaborated
question carries the instruction phrase. -/
theorem generate_answer_word_bounds_witness :
    resolve_bounds (some 5) Option.none = (some 5, some 10)
    ∧ resolve_bounds Option.none (some 7) = (some 3, some 7)
    ∧ (generate_answer "Q" [] (some 5) Option.none false HealthOutcome.ok
        {} {}).question_text
      = "Q Please provide an elaborated answer in 5 to 10 words." := by
  refine ⟨?_, ?_, ?_⟩
  · have h := (generate_answer_word_bounds (some 5) Option.none).1 5 rfl rfl
    rw [h]; decide
  · have h := (generate_answer_word_bounds Option.none (some 7)).2.1 7 rfl rfl
    rw [h]; decide
  · have h := (generate_answer_word_bounds (some 5) Option.none).2.2.1
      "Q" [] false HealthOutcome.ok {} {}
    rw [h]; decide

/-- Claim C8: whenever the query response carries a non-null `system` field,
`generate_answer` returns exactly that message (with the retrieved documents
when requested) and `generate` is never called. -/
theorem generate_answer_system_short_circuit
    (prompt : String) (conversation : List ConversationItem) (mn mx : Option Int)
    (rd : Bool) (health : HealthOutcome) (qres : QueryResponsePayload)
    (gres : GenerateResponsePayload) (s : String) (hs : qres.system = some s) :
    (generate_answer prompt conversation mn mx rd health qres gres).generate_called = false
    ∧ (generate_answer prompt conversation mn mx rd health qres gres).result
      = Except.ok (GenSystem.str s,
          if rd then some qres.documents else Option.none) := by
  have hne : (test_api_connection health).isEmpty = false := by
    cases health <;> rfl
  constructor <;> simp [generate_answer, hne, hs]

/-- Claim C8 witness: a query response carrying a backend-side system message
is propagated verbatim and generation is skipped. -/
theorem generate_answer_system_short_circuit_witness :
    (generate_answer "p" [] Option.none Option.none true HealthOutcome.ok
        { documents := [], context := "", system := some "key not set" }
        { system := GenSystem.str "unused" }).generate_called = false
    ∧ (generate_answer "p" [] Option.none Option.none true HealthOutcome.ok
        { documents := [], context := "", system := some "key not set" }
        { system := GenSystem.str "unused" }).result
      = Except.ok (GenSystem.str "key not set", some []) := by
  have h := generate_answer_system_short_circuit "p" [] Option.none Option.none true
      HealthOutcome.ok
      { documents := [], context := "", system := some "key not set" }
      { system := GenSystem.str "unused" } "key not set" rfl
  exact ⟨h.1, by rw [h.2]; rfl⟩

/-- Claim C9: whenever `generate` returns the cached-response variant, the
caller-visible answer of `generate_answer` is exactly that variant's
`message` string. -/
theorem generate_answer_cached_unwrap
    (prompt : String) (conversation : List ConversationItem) (mn mx : Option Int)
    (rd : Bool) (health : HealthOutcome) (qres : QueryResponsePayload)
    (gres : GenerateResponsePayload) (c : CachedResponse)
    (hq : qres.system = Option.none) (hg : gres.system = GenSystem.cached c) :
    (generate_answer prompt conversation mn mx rd health qres gres).generate_called = true
    ∧ (generate_answer prompt conversation mn mx rd health qres gres).result
      = Except.ok (GenSystem.str c.message,
          if rd then some qres.documents else Option.none) := by
  have hne : (test_api_connection health).isEmpty = false := by
    cases health <;> rfl
  constructor <;> simp [generate_answer, hne, hq, hg]

/-- Claim C9 witness: a concrete cached response is unwrapped to its message. -/
theorem generate_answer_cached_unwrap_witness :
    (generate_answer "p" [] Option.none Option.none false HealthOutcome.ok
        { documents := [], context := "ctx", system := Option.none }
        { system := GenSystem.cached
            { message := "cached!", finish_reason := "stop",
              cached := true, distance := 1 / 10 } }).result
      = Except.ok (GenSystem.str "cached!", Option.none) := by
  have h := generate_answer_cached_unwrap "p" [] Option.none Option.none false
      HealthOutcome.ok
      { documents := [], context := "ctx", system := Option.none }
      { system := GenSystem.cached
          { message := "cached!", finish_reason := "stop",
            cached := true, distance := 1 / 10 } }
      { message := "cached!", finish_reason := "stop",
        cached := true, distance := 1 / 10 }
      rfl rfl
  exact h.2

/-- Claim C10: `APIClient.query` raises `AttributeError` on every plain `str`
argument; on a `bytes` argument it returns a payload exactly when the bytes
are valid UTF-8; and inside `generate_answer` the argument passed to `query`
is always the UTF-8 encoding of the elaborated question. -/
theorem query_requires_utf8_bytes :
    (∀ (resp : WireResponse QueryResponsePayload) (s : String),
      APIClient.query resp (PyStrOrBytes.pystr s) = .error PyError.attributeError)
    ∧ (∀ (resp : WireResponse QueryResponsePayload) (b : List Nat),
      (∃ p, APIClient.query resp (PyStrOrBytes.pybytes b) = .ok p)
        ↔ (utf8_decode b).isSome)
    ∧ (∀ prompt conversation mn mx rd health qres gres,
      (generate_answer prompt conversation mn mx rd health qres gres).query_called = true
      → (generate_answer prompt conversation mn mx rd health qres gres).query_arg
          = some (PyStrOrBytes.pybytes (utf8_encode
              ((generate_answer prompt conversation mn mx rd health qres
                  gres).question_text)))) := by
  refine ⟨fun resp s => rfl, ?_, ?_⟩
  · intro resp b
    cases hd : utf8_decode b with
    | none =>
      simp [APIClient.query, hd]
    | some s =>
      simp only [APIClient.query, hd, Option.isSome_some, iff_true]
      by_cases hs : resp.status_code = 200
      · cases hp : resp.parsed with
        | valid p => exact ⟨p, by simp [hs, hp]⟩
        | invalid =>
          refine ⟨{ system := some (APIClient.query_fallback_message resp.status_code) }, ?_⟩
          simp [hs, hp]
      · refine ⟨{ system := some (APIClient.query_fallback_message resp.status_code) }, ?_⟩
        simp [hs]
  · intro prompt conversation mn mx rd health qres gres _
    have hne : (test_api_connection health).isEmpty = false := by
      cases health <;> rfl
    cases hq : qres.system <;> simp [generate_answer, hne, hq]

/-- Claim C10 witness: a `str` argument raises `AttributeError`; the UTF-8
encoding of a concrete string (with a non-ASCII character) is accepted; and a
concrete `generate_answer` call passes the encoded question to `query`. -/
theorem query_requires_utf8_bytes_witness :
    APIClient.query { status_code := 200, parsed := SchemaValidation.invalid }
        (PyStrOrBytes.pystr "hi") = .error PyError.attributeError
    ∧ (∃ p, APIClient.query { status_code := 200, parsed := SchemaValidation.invalid }
        (PyStrOrBytes.pybytes (utf8_encode "hé")) = .ok p)
    ∧ (generate_answer "hi" [] Option.none Option.none false HealthOutcome.ok
        {} {}).query_called = true
    ∧ (generate_answer "hi" [] Option.none Option.none false HealthOutcome.ok
        {} {}).query_arg = some (PyStrOrBytes.pybytes (utf8_encode "hi")) := by
  refine ⟨query_requires_utf8_bytes.1 _ "hi", ?_, rfl, ?_⟩
  · exact (query_requires_utf8_bytes.2.1
      { status_code := 200, parsed := SchemaValidation.invalid }
      (utf8_encode "hé")).mpr (by decide)
  · have h := query_requires_utf8_bytes.2.2 "hi" [] Option.none Option.none false
      HealthOutcome.ok {} {} rfl
    rw [h]; decide
